import Mathlib

/-!
Verification of the SuperNova task-orchestration engine.

This file gives a shallow embedding, in Lean 4, of the core logic of the
SuperNova repository: the delegator keyword classification
(src/agents/supervisor.py), the base agent LLM-failure fallback
(src/agents/base.py), the coder write/execute/debug flow
(src/workflow/agent_workflow.py), the thinking-process trace recorder
(src/workflow/thinking_process.py), the sandbox executor and filesystem
(src/tools/sandbox.py, src/tools/sandbox_fs.py) and the file-operations
boundary (src/tools/file_operations.py, src/config/tools.py).

External effects (the LLM, the OS filesystem, subprocesses, the clock) are
modelled as explicit oracle parameters: each Python call that can raise is a
function returning `Except String α`, where `.error msg` stands for a raised
exception carrying message `msg`; `time.time()` becomes an explicit `now : Int`
argument supplied at each call.  String-valued statuses and messages are kept
exactly as in the source.
-/

/-! ## String utilities

Python string primitives used by the source (`str.lower`, substring `in`,
`str.startswith`, `str.split`), implemented over `List Char` so that the
kernel can evaluate them.  `lowerChar` models Python `str.lower` restricted
to ASCII, which is all that the source keyword tables use. -/

def lowerChar (c : Char) : Char :=
  if 'A' ≤ c ∧ c ≤ 'Z' then Char.ofNat (c.toNat + 32) else c

def strLower (s : String) : String := String.mk (s.data.map lowerChar)

def listInfix (sub : List Char) : List Char → Bool
  | [] => sub.isEmpty
  | c :: rest => sub.isPrefixOf (c :: rest) || listInfix sub rest

/-- Model of the Python substring test `sub in s`. -/
def strContains (s sub : String) : Bool := listInfix sub.data s.data

/-- Model of Python `s.startswith(pre)`. -/
def strStartsWith (s pre : String) : Bool := pre.data.isPrefixOf s.data

/-- Model of Python `s.endswith(c)` for a single character. -/
def strEndsWithChar (s : String) (c : Char) : Bool := s.data.getLast? == some c

/-- Model of Python `s.split(c)` for a single-character separator (keeps empties). -/
def splitChar (c : Char) : List Char → List (List Char)
  | [] => [[]]
  | x :: xs =>
    match splitChar c xs with
    | [] => [[]]
    | hd :: tl => if x = c then [] :: hd :: tl else (x :: hd) :: tl

/-- Index of the last occurrence of `c` in `l`, if any. -/
def revFindIdx (l : List Char) (c : Char) : Option Nat :=
  match l.reverse.findIdx? (· = c) with
  | none => none
  | some j => some (l.length - 1 - j)

/-! ## POSIX path model

Models of `os.path.join`, `os.path.dirname`, `os.path.basename`,
`os.path.splitext` (extension part) and `os.path.normpath`, following the
CPython `posixpath` implementations.  The source itself never normalizes the
paths it joins; `normpath` is used here only to express where a joined path
actually points. -/

def isAbsPath (p : String) : Bool := strStartsWith p "/"

/-- Model of `os.path.join(a, b)` for two components (POSIX). -/
def joinPath (a b : String) : String :=
  if isAbsPath b then b
  else if a = "" ∨ strEndsWithChar a '/' then a ++ b
  else a ++ "/" ++ b

/-- Model of `os.path.dirname(p)` (POSIX). -/
def dirname (p : String) : String :=
  match revFindIdx p.data '/' with
  | none => ""
  | some i =>
    let head := p.data.take (i + 1)
    if head ≠ [] ∧ head.any (· ≠ '/') then
      String.mk ((head.reverse.dropWhile (· = '/')).reverse)
    else String.mk head

/-- The part of `p` after the last slash, as characters. -/
def baseNameChars (p : String) : List Char :=
  (p.data.reverse.takeWhile (· ≠ '/')).reverse

/-- The extension part of `os.path.splitext(p)`: the suffix of the basename
from its last dot, empty when the basename has no dot or consists only of
leading dots before it (so `.env` has extension `""`). -/
def splitextExt (p : String) : String :=
  let base := baseNameChars p
  match revFindIdx base '.' with
  | none => ""
  | some i => if (base.take i).any (· ≠ '.') then String.mk (base.drop i) else ""

/-- One step of the `normpath` component scan (the loop body of
`posixpath.normpath`). -/
def normStep (initialSlashes : Nat) (acc : List (List Char)) (comp : List Char) :
    List (List Char) :=
  if comp = [] ∨ comp = ['.'] then acc
  else if comp ≠ ['.', '.'] ∨ (initialSlashes = 0 ∧ acc = []) ∨
      (acc ≠ [] ∧ acc.getLast? = some ['.', '.']) then acc ++ [comp]
  else if acc ≠ [] then acc.dropLast
  else acc

/-- Model of `os.path.normpath(p)` (POSIX), including the two-leading-slash rule. -/
def normpath (p : String) : String :=
  if p = "" then "." else
  let initialSlashes : Nat :=
    if strStartsWith p "//" ∧ ¬ strStartsWith p "///" then 2
    else if strStartsWith p "/" then 1 else 0
  let comps := splitChar '/' p.data
  let newComps := comps.foldl (normStep initialSlashes) []
  let joined := String.mk (List.replicate initialSlashes '/') ++
    String.mk (List.intercalate ['/'] newComps)
  if joined = "" then "." else joined

/-- Whether `target` equals `root` or lies strictly below it. -/
def isWithin (target root : String) : Bool :=
  target == root || strStartsWith target (root ++ "/")

/-! ## Delegator and base agent

`SupervisorAgent._parse_specialist` (src/agents/supervisor.py lines 114-137),
the dispatch switch of `AgentWorkflow.run` (src/workflow/agent_workflow.py lines
137-149) and the error handling of `BaseAgent.get_response` (src/agents/base.py
lines 204-241).  The LLM call is an oracle `Except String String`: `.ok t`
is a returned response text, `.error m` a raised exception. -/

def parseSpecialist (response : String) : String :=
  let l := strLower response
  if strContains l "researcher" then "researcher"
  else if strContains l "coder" then "coder"
  else if strContains l "browser" || strContains l "web" || strContains l "website"
      || strContains l "browse" then "browser"
  else if strContains l "file manager" || strContains l "file_manager" then "file_manager"
  else if strContains l "sandbox" || strContains l "execute" || strContains l "command"
      || strContains l "terminal" || strContains l "shell" then "sandbox"
  else "unknown"

/-- The specialist handler `AgentWorkflow.run` dispatches to for a parsed
specialist string; any unmatched value falls through to the supervisor. -/
def dispatchTarget (specialist : String) : String :=
  if specialist = "researcher" then "researcher"
  else if specialist = "coder" then "coder"
  else if specialist = "file_manager" then "file_manager"
  else if specialist = "browser" then "browser"
  else if specialist = "sandbox" then "sandbox"
  else "supervisor"

/-- The fixed fallback text returned by `BaseAgent.get_response` when the
underlying LLM call raises. -/
def fallbackResponse : String :=
  "I\u0027m sorry, but I encountered an error while processing your request. Please try again."

/-- Model of `BaseAgent.get_response`: the LLM outcome is an oracle; an exception is
caught and replaced by the fixed fallback text. -/
def getResponse (llmOutcome : Except String String) : String :=
  match llmOutcome with
  | .ok text => text
  | .error _ => fallbackResponse

structure Delegation where
  specialist : String
  reasoning : String
deriving DecidableEq

/-- Model of `SupervisorAgent.delegate_task`, given the outcome of its one LLM call. -/
def delegateTask (llmOutcome : Except String String) : Delegation :=
  let response := getResponse llmOutcome
  { specialist := parseSpecialist response, reasoning := response }

/-! ## Sandbox executor

`Sandbox.execute_python` and `Sandbox.execute_command`
(src/tools/sandbox.py lines 34-135).  A `subprocess.run` call is an oracle
`RunOutcome`: it completed with an exit code and captured streams, it raised
`subprocess.TimeoutExpired` after the fixed 30-second bound, or it raised some
other exception. -/

/-- The fixed subprocess timeout passed to every `subprocess.run` call. -/
def sandboxTimeoutSeconds : Nat := 30

/-- The sandbox root: `os.path.join(tempfile.gettempdir(), "supernova_sandbox")`,
with `tempfile.gettempdir()` modelled as `/tmp`. -/
def sandboxWorkspaceDir : String := joinPath "/tmp" "supernova_sandbox"

inductive RunOutcome where
  | completed (returncode : Int) (stdout stderr : String)
  | timeoutExpired
  | raised (msg : String)
deriving DecidableEq

/-- Result dictionary of `Sandbox.execute_command`. -/
structure ExecCmdRes where
  status : String
  stdout : Option String
  stderr : Option String
  error : Option String
  command : String
deriving DecidableEq

def timeoutMessage : String :=
  "Execution timed out after " ++ toString sandboxTimeoutSeconds ++ " seconds"

def executeCommand (command : String) (o : RunOutcome) : ExecCmdRes :=
  match o with
  | .completed rc out err =>
    { status := if rc = 0 then "success" else "error",
      stdout := some out, stderr := some err, error := none, command := command }
  | .timeoutExpired =>
    { status := "error", stdout := none, stderr := none,
      error := some timeoutMessage, command := command }
  | .raised m =>
    { status := "error", stdout := none, stderr := none,
      error := some m, command := command }

/-- Result dictionary of `Sandbox.execute_python`. -/
structure ExecPyRes where
  status : String
  stdout : Option String
  stderr : Option String
  error : Option String
  file_id : String
  file_path : String
deriving DecidableEq

/-- Model of `Sandbox.execute_python`: the code is first persisted to
`<workspace>/<uuid>.py` (an oracle write that may raise), then run in a
subprocess with the fixed 30-second timeout. -/
def executePython (code : String) (fileId : String)
    (writeOutcome : Except String Unit) (o : RunOutcome) : ExecPyRes :=
  let filePath := joinPath sandboxWorkspaceDir (fileId ++ ".py")
  match writeOutcome with
  | .error m =>
    { status := "error", stdout := none, stderr := none, error := some m,
      file_id := fileId, file_path := filePath }
  | .ok _ =>
    match o with
    | .completed rc out err =>
      { status := if rc = 0 then "success" else "error",
        stdout := some out, stderr := some err, error := none,
        file_id := fileId, file_path := filePath }
    | .timeoutExpired =>
      { status := "error", stdout := none, stderr := none,
        error := some timeoutMessage, file_id := fileId, file_path := filePath }
    | .raised m =>
      { status := "error", stdout := none, stderr := none, error := some m,
        file_id := fileId, file_path := filePath }

/-! ## Coder flow

`AgentWorkflow._process_coder_task` (src/workflow/agent_workflow.py lines
238-370) together with `CoderAgent.execute_code` (src/agents/coder.py lines
47-70), which delegates to `python_repl.execute`.  The LLM-produced artefacts
(`write_code`, `debug_code` outputs, analyses) and the REPL execution results
are oracles; the i-th `execute_code` call in the flow receives `execResults i`
and `analyses i`. -/

/-- Result dictionary of `PythonREPL.execute` as consumed by the coder flow:
`status`, captured `output` and `error` text. -/
structure ReplRes where
  status : String
  output : String
  error : String
deriving DecidableEq

/-- Output of `CoderAgent.write_code` as consumed by the flow. -/
structure CodeRes where
  code : String
  explanation : String
deriving DecidableEq

/-- Output of `CoderAgent.debug_code` as consumed by the flow. -/
structure DebugRes where
  debugged_code : String
  explanation : String
deriving DecidableEq

/-- Output of `CoderAgent.execute_code`: the REPL result plus an LLM analysis. -/
structure CoderExecRes where
  execution_result : ReplRes
  analysis : String
deriving DecidableEq

/-- Outcome of `_process_coder_task` that the claims are about: the final
adopted code and explanation, how many times `execute_code` ran, the last
execution result (if any), and the formatted result string returned to the
user. -/
structure CoderTaskOut where
  finalCode : String
  finalExplanation : String
  execCalls : Nat
  lastExec : Option CoderExecRes
  result : String
deriving DecidableEq

/-- The `# Code Solution ... ## Execution Result ...` result string built at
the end of `_process_coder_task` (lines 348-360). -/
def coderResultString (code explanation : String) : Option CoderExecRes → String
  | none =>
    "# Code Solution\n\n```python\n" ++ code ++ "\n```\n\n## Explanation\n\n" ++
      explanation
  | some e =>
    "# Code Solution\n\n```python\n" ++ code ++ "\n```\n\n## Explanation\n\n" ++
      explanation ++ "\n\n## Execution Result\n\n" ++
      "Status: " ++ e.execution_result.status ++ "\n\n" ++
      (if e.execution_result.output ≠ "" then
        "Output:\n```\n" ++ e.execution_result.output ++ "\n```\n\n" else "") ++
      (if e.execution_result.error ≠ "" then
        "Error:\n```\n" ++ e.execution_result.error ++ "\n```\n\n" else "") ++
      "Analysis: " ++ e.analysis

/-- Model of `AgentWorkflow._process_coder_task`, control flow only (the trace-recorder
side effects do not influence the returned result).  `writeRes` is the
`write_code` output, `debugRes` the `debug_code` output (consulted only when
the first execution errors), `execResults`/`analyses` the oracle for the
successive `execute_code` calls. -/
def processCoderTask (writeRes : CodeRes) (debugRes : DebugRes)
    (execResults : Nat → ReplRes) (analyses : Nat → String) : CoderTaskOut :=
  if writeRes.code ≠ "" then
    let exec1 : CoderExecRes := { execution_result := execResults 0, analysis := analyses 0 }
    if exec1.execution_result.status = "error" then
      if debugRes.debugged_code ≠ "" then
        let exec2 : CoderExecRes :=
          { execution_result := execResults 1, analysis := analyses 1 }
        if exec2.execution_result.status = "success" then
          let code := debugRes.debugged_code
          let explanation :=
            writeRes.explanation ++ "\n\nDebug Notes: " ++ debugRes.explanation
          { finalCode := code, finalExplanation := explanation, execCalls := 2,
            lastExec := some exec2,
            result := coderResultString code explanation (some exec2) }
        else
          { finalCode := writeRes.code, finalExplanation := writeRes.explanation,
            execCalls := 2, lastExec := some exec2,
            result := coderResultString writeRes.code writeRes.explanation (some exec2) }
      else
        { finalCode := writeRes.code, finalExplanation := writeRes.explanation,
          execCalls := 1, lastExec := some exec1,
          result := coderResultString writeRes.code writeRes.explanation (some exec1) }
    else
      { finalCode := writeRes.code, finalExplanation := writeRes.explanation,
        execCalls := 1, lastExec := some exec1,
        result := coderResultString writeRes.code writeRes.explanation (some exec1) }
  else
    { finalCode := "", finalExplanation := writeRes.explanation, execCalls := 0,
      lastExec := none,
      result := coderResultString "" writeRes.explanation none }

/-! ## Trace recorder (thinking process)

Model of `ThinkingProcess` (src/workflow/thinking_process.py).  Each method
that reads `time.time()` takes the current clock value `now : Int` explicitly.
Step and artifact payload dictionaries become typed payload constructors. -/

def normalThinking : String := "normal"

def deepThinking : String := "deep"

def superDeepThinking : String := "super_deep"

inductive StepContent where
  | query (content : String)
  | thinking (content : String) (thoughtType : String) (depth : Nat)
  | planning (plan : List String)
  | execution (action : String) (result : String)
  | terminal (content : String)
deriving DecidableEq

structure Step where
  id : Nat
  stepType : String
  content : StepContent
  timestamp : Int
  elapsed : Int
deriving DecidableEq

inductive ArtifactContent where
  | link (url title description : String)
  | file (path : String) (content : Option String) (description : String)
deriving DecidableEq

structure Artifact where
  id : Nat
  artifactType : String
  content : ArtifactContent
  timestamp : Int
  step_id : Option Nat
deriving DecidableEq

structure TermEntry where
  content : String
  timestamp : Int
  elapsed : Int
deriving DecidableEq

structure TP where
  steps : List Step
  currentStep : Option Step
  startTime : Int
  artifacts : List Artifact
  links : List Artifact
  files : List Artifact
  plan : List String
  terminalOutput : List TermEntry
  thinkingMode : String
deriving DecidableEq

/-- Constructor state of `ThinkingProcess.__init__`. -/
def initTP (now : Int) (mode : String) : TP :=
  { steps := [], currentStep := none, startTime := now, artifacts := [],
    links := [], files := [], plan := [], terminalOutput := [],
    thinkingMode := mode }

/-- Model of `ThinkingProcess.add_step`: appends a step whose `id` is the new
length and whose `elapsed` is the clock minus the session start. -/
def addStep (now : Int) (stepType : String) (content : StepContent) (tp : TP) : TP :=
  let step : Step :=
    { id := tp.steps.length + 1, stepType := stepType, content := content,
      timestamp := now, elapsed := now - tp.startTime }
  { tp with steps := tp.steps ++ [step], currentStep := some step }

def deepSuffix : String :=
  "\n\nDeep Analysis: I\u0027ll analyze this further by considering multiple perspectives and potential implications."

def superDeepSuffix : String :=
  "\n\nSuper Deep Analysis: I\u0027ll perform an extensive analysis by considering multiple perspectives, potential implications, alternative approaches, and edge cases. I\u0027ll also evaluate the confidence level of my reasoning."

/-- Model of `ThinkingProcess.add_thinking`: a depth-0 thought is elaborated
with a single fixed sentence in deep / super-deep mode (unless it already
starts with the corresponding label); deeper thoughts pass through unchanged. -/
def addThinking (now : Int) (tp : TP) (thought : String) (depth : Nat) : TP :=
  let pair : String × String :=
    if depth = 0 ∧ tp.thinkingMode = deepThinking ∧
        ¬ strStartsWith thought "Deep Analysis:" then
      (thought ++ deepSuffix, "deep_thought")
    else if depth = 0 ∧ tp.thinkingMode = superDeepThinking ∧
        ¬ strStartsWith thought "Super Deep Analysis:" then
      (thought ++ superDeepSuffix, "super_deep_thought")
    else (thought, "thought")
  addStep now "thinking" (.thinking pair.1 pair.2 depth) tp

/-- Model of `ThinkingProcess.add_planning`. -/
def addPlanning (now : Int) (tp : TP) (plan : List String) : TP :=
  addStep now "planning" (.planning plan) { tp with plan := plan }

/-- Model of `ThinkingProcess.add_execution` (the result payload is kept as an
opaque string). -/
def addExecution (now : Int) (tp : TP) (action result : String) : TP :=
  addStep now "execution" (.execution action result) tp

/-- Python `x or default` for optional strings (`None` and `""` both fall back). -/
def orElseStr (o : Option String) (dflt : String) : String :=
  match o with
  | some s => if s = "" then dflt else s
  | none => dflt

/-- Model of `ThinkingProcess.add_artifact`. -/
def addArtifact (now : Int) (tp : TP) (artifactType : String)
    (content : ArtifactContent) : TP :=
  let a : Artifact :=
    { id := tp.artifacts.length + 1, artifactType := artifactType,
      content := content, timestamp := now,
      step_id := tp.currentStep.map (·.id) }
  let tp1 := { tp with artifacts := tp.artifacts ++ [a] }
  if artifactType = "link" then { tp1 with links := tp1.links ++ [a] }
  else if artifactType = "file" then { tp1 with files := tp1.files ++ [a] }
  else tp1

/-- Model of `ThinkingProcess.add_link`. -/
def addLink (now : Int) (tp : TP) (url : String) (title description : Option String) : TP :=
  addArtifact now tp "link" (.link url (orElseStr title url) (orElseStr description ""))

/-- Model of `ThinkingProcess.add_file`. -/
def addFile (now : Int) (tp : TP) (path : String) (content : Option String)
    (description : Option String) : TP :=
  addArtifact now tp "file" (.file path content (orElseStr description ""))

/-- Model of `ThinkingProcess.add_terminal_output`. -/
def addTerminalOutput (now : Int) (tp : TP) (output : String) : TP :=
  let tp1 := { tp with terminalOutput := tp.terminalOutput ++
    [{ content := output, timestamp := now, elapsed := now - tp.startTime }] }
  addStep now "terminal" (.terminal output) tp1

def defaultPerspectives : List String :=
  ["Logical perspective", "Creative perspective", "Critical perspective",
   "Practical perspective"]

/-- Model of `ThinkingProcess.add_deep_thinking`: prefixes the thought with
`Deep Analysis:`, appends one labelled line per perspective (the fixed four
when none are supplied) and records the result as a depth-1 thought. -/
def addDeepThinking (now : Int) (tp : TP) (thought : String)
    (perspectives : Option (List String)) : TP :=
  let ps := match perspectives with
    | none => defaultPerspectives
    | some l => if l = [] then defaultPerspectives else l
  let enhanced := ps.foldl
    (fun acc p => acc ++ "**" ++ p ++ "**: Considering this from a " ++
      strLower p ++ " viewpoint...\n")
    ("Deep Analysis: " ++ thought ++ "\n\n")
  addThinking now tp enhanced 1

def defaultAnalysisPoints : List String :=
  ["Multiple perspectives", "Potential implications", "Alternative approaches",
   "Edge cases", "Confidence assessment", "Potential challenges",
   "Success criteria"]

/-- Model of `ThinkingProcess.add_super_deep_thinking`: prefixes the thought
with `Super Deep Analysis:`, appends one labelled line per analysis point (the
fixed seven when none are supplied) and records the result as a depth-2
thought. -/
def addSuperDeepThinking (now : Int) (tp : TP) (thought : String)
    (points : Option (List String)) : TP :=
  let ps := match points with
    | none => defaultAnalysisPoints
    | some l => if l = [] then defaultAnalysisPoints else l
  let enhanced := ps.foldl
    (fun acc p => acc ++ "**" ++ p ++ "**: Analyzing " ++ strLower p ++
      " in depth...\n")
    ("Super Deep Analysis: " ++ thought ++ "\n\n")
  addThinking now tp enhanced 2

/-- Model of `ThinkingProcess.start_thinking`: resets every collection, resets
the session start time, optionally overrides the mode (a `None` or empty mode
leaves it unchanged), appends the initial query step and the mode-activation
thought. -/
def startThinking (now : Int) (query : String) (mode : Option String) (tp : TP) : TP :=
  let newMode := match mode with
    | some m => if m = "" then tp.thinkingMode else m
    | none => tp.thinkingMode
  let tp1 : TP :=
    { steps := [], currentStep := none, startTime := now, artifacts := [],
      links := [], files := [], plan := [], terminalOutput := [],
      thinkingMode := newMode }
  let tp2 := addStep now "query" (.query query) tp1
  if newMode = deepThinking then
    addThinking now tp2 "Deep Thinking Mode activated. I\u0027ll provide more detailed reasoning and analysis." 0
  else if newMode = superDeepThinking then
    addThinking now tp2 "Super Deep Thinking Mode activated. I\u0027ll provide extremely detailed reasoning, analysis, and alternative approaches." 0
  else tp2

/-- One recorder call made during a session, together with the clock value at
which it happens (`start_thinking` itself starts the session and is applied
separately). -/
inductive TPOp where
  | thinking (thought : String) (depth : Nat)
  | planning (plan : List String)
  | execution (action : String) (result : String)
  | link (url : String) (title description : Option String)
  | file (path : String) (content : Option String) (description : Option String)
  | deepThinking (thought : String) (perspectives : Option (List String))
  | superDeepThinking (thought : String) (points : Option (List String))
  | terminalOutput (output : String)
deriving DecidableEq

def applyOp (now : Int) (op : TPOp) (tp : TP) : TP :=
  match op with
  | .thinking t d => addThinking now tp t d
  | .planning p => addPlanning now tp p
  | .execution a r => addExecution now tp a r
  | .link u t d => addLink now tp u t d
  | .file p c d => addFile now tp p c d
  | .deepThinking t p => addDeepThinking now tp t p
  | .superDeepThinking t p => addSuperDeepThinking now tp t p
  | .terminalOutput o => addTerminalOutput now tp o

def applyOps (ops : List (Int × TPOp)) (tp : TP) : TP :=
  ops.foldl (fun acc p => applyOp p.1 p.2 acc) tp

def stepIds (tp : TP) : List Nat := tp.steps.map (·.id)

def stepElapsed (tp : TP) : List Int := tp.steps.map (·.elapsed)

/-! ## Sandbox filesystem

Models of `SandboxFileSystem` (src/tools/sandbox_fs.py) and the file methods
of `Sandbox` (src/tools/sandbox.py lines 137-327).  OS primitives are an
oracle `SBWorld`; a primitive returning `.error msg` stands for a raised
exception, which every operation catches and converts into an error
dictionary. -/

structure SBWorld where
  pathExists : String → Except String Bool
  isdir : String → Except String Bool
  isfile : String → Except String Bool
  listdir : String → Except String (List String)
  getsize : String → Except String Nat
  getmtime : String → Except String Int
  getctime : String → Except String Int
  getatime : String → Except String Int
  makedirs : String → Except String Unit
  copy2 : String → String → Except String Unit
  move : String → String → Except String Unit
  globMatch : String → Except String (List String)
  writeData : String → String → Except String Unit
  readData : String → Except String String
  removeFile : String → Except String Unit
  walk : String → Except String (List (String × List String × List String))

/-- Model of `os.path.relpath(p, start)` for the descendant cases that occur
in the source (paths produced by walking or globbing under `start`). -/
def relPath (p start : String) : String :=
  if p = start then "."
  else if strStartsWith p (start ++ "/") then
    String.mk (p.data.drop (start.length + 1))
  else p

structure ItemInfo where
  name : String
  path : String
  full_path : String
  is_dir : Bool
  size : Nat
  modified : Int
deriving DecidableEq

structure ListDirRes where
  status : String
  error : Option String
  path : String
  full_path : Option String
  items : Option (List ItemInfo)
deriving DecidableEq

/-- Item dictionary built for one entry of `SandboxFileSystem.list_directory`. -/
def itemInfoOf (w : SBWorld) (fullPath relBase name : String) :
    Except String ItemInfo := do
  let itemPath := joinPath fullPath name
  let relP := if relBase ≠ "" then joinPath relBase name else name
  let d ← w.isdir itemPath
  let f ← w.isfile itemPath
  let sz ← if f then w.getsize itemPath else pure 0
  let m ← w.getmtime itemPath
  pure { name := name, path := relP, full_path := itemPath, is_dir := d,
         size := sz, modified := m }

/-- Model of `SandboxFileSystem.list_directory`. -/
def listDirectory (w : SBWorld) (workspaceDir path : String) : ListDirRes :=
  let fullPath := joinPath workspaceDir path
  match w.pathExists fullPath with
  | .error e =>
    { status := "error", error := some e, path := path, full_path := none, items := none }
  | .ok false =>
    { status := "error", error := some ("Path " ++ path ++ " does not exist"),
      path := path, full_path := none, items := none }
  | .ok true =>
    match w.isdir fullPath with
    | .error e =>
      { status := "error", error := some e, path := path, full_path := none, items := none }
    | .ok false =>
      { status := "error", error := some ("Path " ++ path ++ " is not a directory"),
        path := path, full_path := none, items := none }
    | .ok true =>
      match w.listdir fullPath with
      | .error e =>
        { status := "error", error := some e, path := path, full_path := none,
          items := none }
      | .ok names =>
        match names.mapM (itemInfoOf w fullPath path) with
        | .error e =>
          { status := "error", error := some e, path := path, full_path := none,
            items := none }
        | .ok items =>
          { status := "success", error := none, path := path,
            full_path := some fullPath, items := some items }

structure CreateDirRes where
  status : String
  error : Option String
  message : Option String
  path : String
  full_path : Option String
deriving DecidableEq

/-- Model of `SandboxFileSystem.create_directory`. -/
def createDirectory (w : SBWorld) (workspaceDir path : String) : CreateDirRes :=
  let fullPath := joinPath workspaceDir path
  match w.pathExists fullPath with
  | .error e =>
    { status := "error", error := some e, message := none, path := path,
      full_path := none }
  | .ok true =>
    match w.isdir fullPath with
    | .error e =>
      { status := "error", error := some e, message := none, path := path,
        full_path := none }
    | .ok true =>
      { status := "success", error := none,
        message := some ("Directory " ++ path ++ " already exists"),
        path := path, full_path := some fullPath }
    | .ok false =>
      { status := "error",
        error := some ("Path " ++ path ++ " exists but is not a directory"),
        message := none, path := path, full_path := none }
  | .ok false =>
    match w.makedirs fullPath with
    | .error e =>
      { status := "error", error := some e, message := none, path := path,
        full_path := none }
    | .ok _ =>
      { status := "success", error := none,
        message := some ("Directory " ++ path ++ " created successfully"),
        path := path, full_path := some fullPath }

structure CopyMoveRes where
  status : String
  error : Option String
  message : Option String
  source : String
  destination : String
  source_path : Option String
  dest_path : Option String
deriving DecidableEq

/-- Model of `SandboxFileSystem.copy_file`. -/
def copyFile (w : SBWorld) (workspaceDir source destination : String) : CopyMoveRes :=
  let sourcePath := joinPath workspaceDir source
  let destPath := joinPath workspaceDir destination
  match w.pathExists sourcePath with
  | .error e =>
    { status := "error", error := some e, message := none, source := source,
      destination := destination, source_path := none, dest_path := none }
  | .ok false =>
    { status := "error", error := some ("Source " ++ source ++ " does not exist"),
      message := none, source := source, destination := destination,
      source_path := none, dest_path := none }
  | .ok true =>
    match w.isfile sourcePath with
    | .error e =>
      { status := "error", error := some e, message := none, source := source,
        destination := destination, source_path := none, dest_path := none }
    | .ok false =>
      { status := "error", error := some ("Source " ++ source ++ " is not a file"),
        message := none, source := source, destination := destination,
        source_path := none, dest_path := none }
    | .ok true =>
      match w.makedirs (dirname destPath) with
      | .error e =>
        { status := "error", error := some e, message := none, source := source,
          destination := destination, source_path := none, dest_path := none }
      | .ok _ =>
        match w.copy2 sourcePath destPath with
        | .error e =>
          { status := "error", error := some e, message := none, source := source,
            destination := destination, source_path := none, dest_path := none }
        | .ok _ =>
          { status := "success", error := none,
            message := some ("File " ++ source ++ " copied to " ++ destination),
            source := source, destination := destination,
            source_path := some sourcePath, dest_path := some destPath }

/-- Model of `SandboxFileSystem.move_file`. -/
def moveFile (w : SBWorld) (workspaceDir source destination : String) : CopyMoveRes :=
  let sourcePath := joinPath workspaceDir source
  let destPath := joinPath workspaceDir destination
  match w.pathExists sourcePath with
  | .error e =>
    { status := "error", error := some e, message := none, source := source,
      destination := destination, source_path := none, dest_path := none }
  | .ok false =>
    { status := "error", error := some ("Source " ++ source ++ " does not exist"),
      message := none, source := source, destination := destination,
      source_path := none, dest_path := none }
  | .ok true =>
    match w.makedirs (dirname destPath) with
    | .error e =>
      { status := "error", error := some e, message := none, source := source,
        destination := destination, source_path := none, dest_path := none }
    | .ok _ =>
      match w.move sourcePath destPath with
      | .error e =>
        { status := "error", error := some e, message := none, source := source,
          destination := destination, source_path := none, dest_path := none }
      | .ok _ =>
        { status := "success", error := none,
          message := some ("File " ++ source ++ " moved to " ++ destination),
          source := source, destination := destination,
          source_path := some sourcePath, dest_path := some destPath }

structure MatchInfo where
  path : String
  full_path : String
  is_dir : Bool
  size : Nat
  modified : Int
deriving DecidableEq

structure FindRes where
  status : String
  error : Option String
  pattern : String
  matchList : Option (List MatchInfo)
  count : Option Nat
deriving DecidableEq

/-- Match dictionary built for one glob result of
`SandboxFileSystem.find_files`. -/
def matchInfoOf (w : SBWorld) (workspaceDir m : String) : Except String MatchInfo := do
  let relP := relPath m workspaceDir
  let d ← w.isdir m
  let f ← w.isfile m
  let sz ← if f then w.getsize m else pure 0
  let mt ← w.getmtime m
  pure { path := relP, full_path := m, is_dir := d, size := sz, modified := mt }

/-- Model of `SandboxFileSystem.find_files`. -/
def findFiles (w : SBWorld) (workspaceDir pattern : String) : FindRes :=
  let fullPattern := joinPath workspaceDir pattern
  match w.globMatch fullPattern with
  | .error e =>
    { status := "error", error := some e, pattern := pattern, matchList := none,
      count := none }
  | .ok ms =>
    match ms.mapM (matchInfoOf w workspaceDir) with
    | .error e =>
      { status := "error", error := some e, pattern := pattern, matchList := none,
        count := none }
    | .ok infos =>
      { status := "success", error := none, pattern := pattern,
        matchList := some infos, count := some infos.length }

structure FileInfoRes where
  status : String
  error : Option String
  path : String
  full_path : Option String
  fileExists : Option Bool
  is_dir : Option Bool
  is_file : Option Bool
  size : Option Nat
  created : Option Int
  modified : Option Int
  accessed : Option Int
deriving DecidableEq

/-- Model of `SandboxFileSystem.get_file_info` (the `exists` dictionary key is
called `fileExists` here). -/
def getFileInfo (w : SBWorld) (workspaceDir path : String) : FileInfoRes :=
  let fullPath := joinPath workspaceDir path
  let exc : String → FileInfoRes := fun e =>
    { status := "error", error := some e, path := path, full_path := none,
      fileExists := none, is_dir := none, is_file := none, size := none,
      created := none, modified := none, accessed := none }
  match w.pathExists fullPath with
  | .error e => exc e
  | .ok false =>
    { status := "error", error := some ("Path " ++ path ++ " does not exist"),
      path := path, full_path := none, fileExists := none, is_dir := none,
      is_file := none, size := none, created := none, modified := none,
      accessed := none }
  | .ok true =>
    match w.isdir fullPath with
    | .error e => exc e
    | .ok isDir =>
      match (do
        let isFile ← w.isfile fullPath
        let sz ← if ¬ isDir then w.getsize fullPath else pure 0
        let cr ← w.getctime fullPath
        let mo ← w.getmtime fullPath
        let ac ← w.getatime fullPath
        pure (isFile, sz, cr, mo, ac) : Except String (Bool × Nat × Int × Int × Int)) with
      | .error e => exc e
      | .ok fields =>
        { status := "success", error := none, path := path,
          full_path := some fullPath, fileExists := some true,
          is_dir := some isDir, is_file := some fields.1, size := some fields.2.1,
          created := some fields.2.2.1, modified := some fields.2.2.2.1,
          accessed := some fields.2.2.2.2 }

/-! Sandbox-level file methods (src/tools/sandbox.py).  The sandbox tracks its
created files in an id-keyed dictionary, modelled as an association list. -/

structure TrackedFile where
  path : String
  ftype : String
  content : String
  created_at : Int
deriving DecidableEq

structure SandboxState where
  files : List (String × TrackedFile)
deriving DecidableEq

structure SBCreateRes where
  status : String
  error : Option String
  file_id : Option String
  file_path : Option String
  filename : String
deriving DecidableEq

/-- Model of `Sandbox.create_file`: join the filename onto the workspace root,
create parent directories, write the content, and track the file under a fresh
uuid (supplied as an oracle). -/
def sbCreateFile (w : SBWorld) (now : Int) (uuid : String) (st : SandboxState)
    (filename content : String) : SBCreateRes × SandboxState :=
  let filePath := joinPath sandboxWorkspaceDir filename
  match w.makedirs (dirname filePath) with
  | .error e =>
    ({ status := "error", error := some e, file_id := none, file_path := none,
       filename := filename }, st)
  | .ok _ =>
    match w.writeData filePath content with
    | .error e =>
      ({ status := "error", error := some e, file_id := none, file_path := none,
         filename := filename }, st)
    | .ok _ =>
      ({ status := "success", error := none, file_id := some uuid,
         file_path := some filePath, filename := filename },
       { files := st.files ++
          [(uuid, { path := filePath, ftype := "file", content := content,
                    created_at := now })] })

structure SBReadRes where
  status : String
  error : Option String
  content : Option String
  file_path : Option String
  filename : String
deriving DecidableEq

/-- Model of `Sandbox.read_file`. -/
def sbReadFile (w : SBWorld) (filename : String) : SBReadRes :=
  let filePath := joinPath sandboxWorkspaceDir filename
  match w.pathExists filePath with
  | .error e =>
    { status := "error", error := some e, content := none, file_path := none,
      filename := filename }
  | .ok false =>
    { status := "error",
      error := some ("File " ++ filename ++ " does not exist"),
      content := none, file_path := none, filename := filename }
  | .ok true =>
    match w.readData filePath with
    | .error e =>
      { status := "error", error := some e, content := none, file_path := none,
        filename := filename }
    | .ok content =>
      { status := "success", error := none, content := some content,
        file_path := some filePath, filename := filename }

structure SBFileEntry where
  filename : String
  path : String
  size : Nat
  modified_at : Int
deriving DecidableEq

structure SBListRes where
  status : String
  error : Option String
  files : Option (List SBFileEntry)
deriving DecidableEq

/-- File entries collected by one `os.walk` triple in `Sandbox.list_files`. -/
def sbEntriesOf (w : SBWorld) (triple : String × List String × List String) :
    Except String (List SBFileEntry) :=
  triple.2.2.mapM (fun name => do
    let filePath := joinPath triple.1 name
    let rel := relPath filePath sandboxWorkspaceDir
    let sz ← w.getsize filePath
    let mt ← w.getmtime filePath
    pure { filename := rel, path := filePath, size := sz, modified_at := mt })

/-- Model of `Sandbox.list_files`. -/
def sbListFiles (w : SBWorld) : SBListRes :=
  match w.walk sandboxWorkspaceDir with
  | .error e => { status := "error", error := some e, files := none }
  | .ok triples =>
    match triples.mapM (sbEntriesOf w) with
    | .error e => { status := "error", error := some e, files := none }
    | .ok groups =>
      { status := "success", error := none, files := some groups.flatten }

structure SBDeleteRes where
  status : String
  error : Option String
  filename : String
deriving DecidableEq

/-- Model of `Sandbox.delete_file`: deletes the file and drops every tracked
entry pointing at it. -/
def sbDeleteFile (w : SBWorld) (st : SandboxState) (filename : String) :
    SBDeleteRes × SandboxState :=
  let filePath := joinPath sandboxWorkspaceDir filename
  match w.pathExists filePath with
  | .error e =>
    ({ status := "error", error := some e, filename := filename }, st)
  | .ok false =>
    ({ status := "error",
       error := some ("File " ++ filename ++ " does not exist"),
       filename := filename }, st)
  | .ok true =>
    match w.removeFile filePath with
    | .error e =>
      ({ status := "error", error := some e, filename := filename }, st)
    | .ok _ =>
      ({ status := "success", error := none, filename := filename },
       { files := st.files.filter (fun pr => pr.2.path ≠ filePath) })

structure SBCleanRes where
  status : String
  error : Option String
  message : Option String
deriving DecidableEq

/-- Model of `Sandbox.clean`: removes every file found by walking the
workspace, then clears the tracked-file dictionary. -/
def sbClean (w : SBWorld) (st : SandboxState) : SBCleanRes × SandboxState :=
  match w.walk sandboxWorkspaceDir with
  | .error e => ({ status := "error", error := some e, message := none }, st)
  | .ok triples =>
    let removeAll : Except String Unit :=
      triples.forM (fun triple =>
        triple.2.2.forM (fun name => w.removeFile (joinPath triple.1 name)))
    match removeAll with
    | .error e => ({ status := "error", error := some e, message := none }, st)
    | .ok _ =>
      ({ status := "success", error := none,
         message := some "Sandbox cleaned successfully" }, { files := [] })

/-! ## File operations

Models of `FileOperations.read_file` / `write_file`
(src/tools/file_operations.py) and the `FILE_CONFIG` constants
(src/config/tools.py lines 31-49).  `write_file` additionally reports the
list of filesystem calls it performed, so that "no write happens on
rejection" is expressible. -/

def allowedExtensions : List String :=
  [".txt", ".md", ".rst", ".log", ".ini", ".cfg", ".conf",
   ".py", ".js", ".jsx", ".ts", ".tsx", ".html", ".css", ".scss", ".less",
   ".java", ".c", ".cpp", ".h", ".hpp", ".cs", ".go", ".php", ".rb", ".swift",
   ".sh", ".bash", ".zsh", ".bat", ".ps1",
   ".json", ".yaml", ".yml", ".xml", ".csv", ".tsv", ".toml",
   ".html", ".htm", ".css", ".svg",
   ".env", ".gitignore", ".dockerignore", ".editorconfig"]

def maxFileSize : Nat := 20 * 1024 * 1024

/-- Model of `FileOperations._normalize_path`: absolute paths pass through
unchanged; relative paths become `normpath(join(cwd, path))` as in
`os.path.abspath`. -/
def normalizeFilePath (cwd p : String) : String :=
  if isAbsPath p then p else normpath (joinPath cwd p)

structure FileWorld where
  pathExists : String → Except String Bool
  getsize : String → Except String Nat
  readData : String → Except String String
  makedirs : String → Except String Unit
  writeData : String → String → Except String Unit

inductive FileEffect where
  | mkdirs (dir : String)
  | fileWrite (path : String) (content : String)
deriving DecidableEq

structure FileOpResult where
  status : String
  error : String
  content : Option String
  size : Option Nat
  path : Option String
deriving DecidableEq

/-- Helper building the allowed-extensions part of the rejection message (the
source joins a Python set, whose iteration order is unspecified; the list
order is used here). -/
def allowedExtensionsJoined : String :=
  String.intercalate ", " allowedExtensions

/-- Model of `FileOperations.write_file`.  The second component lists the
filesystem calls that were issued, in order. -/
def writeFile (w : FileWorld) (cwd filePath content : String) :
    FileOpResult × List FileEffect :=
  let fp := normalizeFilePath cwd filePath
  let ext := splitextExt fp
  if ¬ allowedExtensions.contains ext then
    ({ status := "error",
       error := "File extension not allowed: " ++ ext ++
         ". Allowed extensions: " ++ allowedExtensionsJoined,
       content := none, size := none, path := none }, [])
  else
    match w.makedirs (dirname fp) with
    | .error e =>
      ({ status := "error", error := "Error writing file: " ++ e,
         content := none, size := none, path := none }, [.mkdirs (dirname fp)])
    | .ok _ =>
      match w.writeData fp content with
      | .error e =>
        ({ status := "error", error := "Error writing file: " ++ e,
           content := none, size := none, path := none },
         [.mkdirs (dirname fp), .fileWrite fp content])
      | .ok _ =>
        ({ status := "success", error := "", content := none,
           size := some content.length, path := some fp },
         [.mkdirs (dirname fp), .fileWrite fp content])

/-- Model of `FileOperations.read_file`. -/
def readFile (w : FileWorld) (cwd filePath : String) : FileOpResult :=
  let fp := normalizeFilePath cwd filePath
  match w.pathExists fp with
  | .error e =>
    { status := "error", error := "Error reading file: " ++ e, content := none,
      size := none, path := none }
  | .ok false =>
    { status := "error", error := "File not found: " ++ fp, content := none,
      size := none, path := none }
  | .ok true =>
    let ext := splitextExt fp
    if ¬ allowedExtensions.contains ext then
      { status := "error",
        error := "File extension not allowed: " ++ ext ++
          ". Allowed extensions: " ++ allowedExtensionsJoined,
        content := none, size := none, path := none }
    else
      match w.getsize fp with
      | .error e =>
        { status := "error", error := "Error reading file: " ++ e,
          content := none, size := none, path := none }
      | .ok fileSize =>
        if fileSize > maxFileSize then
          { status := "error",
            error := "File too large: " ++ toString fileSize ++
              " bytes. Maximum allowed: " ++ toString maxFileSize ++ " bytes",
            content := none, size := none, path := none }
        else
          match w.readData fp with
          | .error e =>
            { status := "error", error := "Error reading file: " ++ e,
              content := none, size := none, path := none }
          | .ok content =>
            { status := "success", error := "", content := some content,
              size := some fileSize, path := some fp }

/-! ## Concrete instances and invariants used by the theorems. -/

/-- A filesystem world in which every primitive succeeds. -/
def okFileWorld : FileWorld :=
  { pathExists := fun _ => .ok true, getsize := fun _ => .ok 0,
    readData := fun _ => .ok "", makedirs := fun _ => .ok (),
    writeData := fun _ _ => .ok () }

/-- A sandbox world in which every primitive succeeds, every path exists and
is both a file and a directory as far as queried, and listings are empty. -/
def okSBWorld : SBWorld :=
  { pathExists := fun _ => .ok true, isdir := fun _ => .ok true,
    isfile := fun _ => .ok true, listdir := fun _ => .ok [],
    getsize := fun _ => .ok 0, getmtime := fun _ => .ok 0,
    getctime := fun _ => .ok 0, getatime := fun _ => .ok 0,
    makedirs := fun _ => .ok (), copy2 := fun _ _ => .ok (),
    move := fun _ _ => .ok (), globMatch := fun _ => .ok [],
    writeData := fun _ _ => .ok (), readData := fun _ => .ok "",
    removeFile := fun _ => .ok (), walk := fun _ => .ok [] }

/-- A content one byte over the configured 20 MB cap. -/
def oversizedContent : String := String.mk (List.replicate (maxFileSize + 1) 'a')

/-- A fresh recorder in deep-thinking mode. -/
def deepTP : TP := initTP 0 deepThinking

/-- The labelled perspective lines produced by `add_deep_thinking` with the
default perspective list. -/
def deepPerspectiveLines : String :=
  "**Logical perspective**: Considering this from a logical perspective viewpoint...\n**Creative perspective**: Considering this from a creative perspective viewpoint...\n**Critical perspective**: Considering this from a critical perspective viewpoint...\n**Practical perspective**: Considering this from a practical perspective viewpoint...\n"

/-- The labelled analysis-point lines produced by `add_super_deep_thinking`
with the default point list. -/
def superDeepPointLines : String :=
  "**Multiple perspectives**: Analyzing multiple perspectives in depth...\n**Potential implications**: Analyzing potential implications in depth...\n**Alternative approaches**: Analyzing alternative approaches in depth...\n**Edge cases**: Analyzing edge cases in depth...\n**Confidence assessment**: Analyzing confidence assessment in depth...\n**Potential challenges**: Analyzing potential challenges in depth...\n**Success criteria**: Analyzing success criteria in depth...\n"

/-- Content of the most recently appended step, if any. -/
def currentContent (tp : TP) : Option StepContent :=
  match tp.currentStep with
  | none => none
  | some s => some s.content

/-- Session invariant of the trace recorder: event ids are exactly `1..N` in
append order, elapsed values are pairwise non-decreasing, and every elapsed
value is bounded by the current clock minus the session start. -/
def TPInv (tp : TP) (clock : Int) : Prop :=
  stepIds tp = List.range' 1 tp.steps.length ∧
  List.Pairwise (· ≤ ·) (stepElapsed tp) ∧
  ∀ e ∈ stepElapsed tp, e ≤ clock - tp.startTime

/-- The totality contract of a sandbox filesystem result: its status is
either `success` or `error`, and every error result carries a message. -/
def okStatus (status : String) (error : Option String) : Prop :=
  status = "success" ∨ (status = "error" ∧ error ≠ none)

/-! ## Theorem section. -/

/-- C1 helper: the five keyword groups of `_parse_specialist`. -/
def researcherHit (l : String) : Bool := strContains l "researcher"

def coderHit (l : String) : Bool := strContains l "coder"

def browserHit (l : String) : Bool :=
  strContains l "browser" || strContains l "web" || strContains l "website" ||
    strContains l "browse"

def fileManagerHit (l : String) : Bool :=
  strContains l "file manager" || strContains l "file_manager"

def sandboxHit (l : String) : Bool :=
  strContains l "sandbox" || strContains l "execute" || strContains l "command" ||
    strContains l "terminal" || strContains l "shell"

/-- C1: the Delegator classification follows the fixed case-insensitive
substring priority order researcher, coder, browser-group, file-manager-group,
sandbox-group; the first matching group wins even when later-priority keywords
are present, and a response with no keyword maps to the Supervisor fallback
rather than an error. -/
theorem c1_delegator_priority (r : String) :
    (researcherHit (strLower r) = true → parseSpecialist r = "researcher") ∧
    (researcherHit (strLower r) = false → coderHit (strLower r) = true →
      parseSpecialist r = "coder") ∧
    (researcherHit (strLower r) = false → coderHit (strLower r) = false →
      browserHit (strLower r) = true → parseSpecialist r = "browser") ∧
    (researcherHit (strLower r) = false → coderHit (strLower r) = false →
      browserHit (strLower r) = false → fileManagerHit (strLower r) = true →
      parseSpecialist r = "file_manager") ∧
    (researcherHit (strLower r) = false → coderHit (strLower r) = false →
      browserHit (strLower r) = false → fileManagerHit (strLower r) = false →
      sandboxHit (strLower r) = true → parseSpecialist r = "sandbox") ∧
    (researcherHit (strLower r) = false → coderHit (strLower r) = false →
      browserHit (strLower r) = false → fileManagerHit (strLower r) = false →
      sandboxHit (strLower r) = false →
      parseSpecialist r = "unknown" ∧ dispatchTarget (parseSpecialist r) = "supervisor") := by
  unfold parseSpecialist dispatchTarget researcherHit coderHit browserHit
    fileManagerHit sandboxHit
  refine ⟨?_, ?_, ?_, ?_, ?_, ?_⟩ <;> intros <;> simp_all

/-- C1 witness: concrete classifications, including a response holding both
`researcher` and `coder` resolving to the researcher, and a keyword-free
response falling back to the supervisor. -/
theorem c1_witness :
    parseSpecialist "Either the Researcher or the Coder could do this" = "researcher" ∧
    parseSpecialist "Definitely the Coder" = "coder" ∧
    parseSpecialist "What a nice day" = "unknown" ∧
    dispatchTarget (parseSpecialist "What a nice day") = "supervisor" := by
  refine ⟨?_, ?_, ?_, ?_⟩
  · exact (c1_delegator_priority "Either the Researcher or the Coder could do this").1
      (by decide)
  · exact (c1_delegator_priority "Definitely the Coder").2.1 (by decide) (by decide)
  · exact ((c1_delegator_priority "What a nice day").2.2.2.2.2 (by decide) (by decide)
      (by decide) (by decide) (by decide)).1
  · exact ((c1_delegator_priority "What a nice day").2.2.2.2.2 (by decide) (by decide)
      (by decide) (by decide) (by decide)).2

/-- C8: when the LLM call raises, `get_response` returns the fixed fallback
text instead of propagating; the fallback text matches no routing keyword, so
`delegate_task` yields the `unknown` specialist and the workflow dispatches to
the Supervisor fallback handler. -/
theorem c8_llm_failure_fallback (msg : String) :
    getResponse (.error msg) = fallbackResponse ∧
    parseSpecialist fallbackResponse = "unknown" ∧
    (delegateTask (.error msg)).specialist = "unknown" ∧
    dispatchTarget (delegateTask (.error msg)).specialist = "supervisor" := by
  have h1 : getResponse (.error msg) = fallbackResponse := rfl
  have h2 : parseSpecialist fallbackResponse = "unknown" := by decide
  refine ⟨h1, h2, ?_, ?_⟩
  · show parseSpecialist (getResponse (.error msg)) = "unknown"
    rw [h1]; exact h2
  · show dispatchTarget (parseSpecialist (getResponse (.error msg))) = "supervisor"
    rw [h1, h2]; decide

/-- C2 counterexample: a timed-out `execute_command` invocation does not carry
a distinct Timeout status; its status is the same `"error"` string used for
non-zero exits, and no partially captured stdout/stderr is returned. -/
theorem c2_timeout_counterexample :
    (executeCommand "sleep 31" .timeoutExpired).status = "error" ∧
    (executeCommand "sleep 31" .timeoutExpired).status ≠ "timeout" ∧
    (executeCommand "sleep 31" .timeoutExpired).stdout = none ∧
    (executeCommand "sleep 31" .timeoutExpired).stderr = none := by
  refine ⟨rfl, by decide, rfl, rfl⟩

/-- C2 amended: exceeding the fixed 30-second subprocess timeout yields
status `"error"` (the same status as a non-zero exit) with the error text
`Execution timed out after 30 seconds` and no captured stdout/stderr, for
both `execute_command` and `execute_python`; completed runs map exit code 0
to `"success"` and any other exit code to `"error"`. -/
theorem c2_timeout_amended :
    (∀ cmd, executeCommand cmd .timeoutExpired =
      { status := "error", stdout := none, stderr := none,
        error := some timeoutMessage, command := cmd }) ∧
    (∀ cmd rc out err, rc ≠ 0 →
      (executeCommand cmd (.completed rc out err)).status = "error") ∧
    (∀ cmd rc out err, rc = 0 →
      (executeCommand cmd (.completed rc out err)).status = "success") ∧
    (∀ code fid, executePython code fid (.ok ()) .timeoutExpired =
      { status := "error", stdout := none, stderr := none,
        error := some timeoutMessage, file_id := fid,
        file_path := joinPath sandboxWorkspaceDir (fid ++ ".py") }) ∧
    timeoutMessage = "Execution timed out after 30 seconds" := by
  refine ⟨fun cmd => rfl, ?_, ?_, fun c f => rfl, by decide⟩
  · intro cmd rc out err h
    simp [executeCommand, h]
  · intro cmd rc out err h
    simp [executeCommand, h]

/-- C2 witness: concrete timeout and non-zero-exit invocations. -/
theorem c2_witness :
    executeCommand "sleep 31" .timeoutExpired =
      { status := "error", stdout := none, stderr := none,
        error := some timeoutMessage, command := "sleep 31" } ∧
    (executeCommand "false" (.completed 1 "" "")).status = "error" :=
  ⟨c2_timeout_amended.1 "sleep 31", c2_timeout_amended.2.1 "false" 1 "" "" (by decide)⟩

/-- C3: in the coder flow, when the first execution errors and `debug_code`
produces (non-empty) debugged code, the debugged code is executed exactly once
more and never a third time; it is adopted as the final code only when that
second execution succeeds, and otherwise the final result keeps the original
code and reports the second execution (its status appears in the result
text). -/
theorem c3_coder_single_retry (writeRes : CodeRes) (debugRes : DebugRes)
    (execResults : Nat → ReplRes) (analyses : Nat → String)
    (hcode : writeRes.code ≠ "")
    (herr : (execResults 0).status = "error")
    (hdbg : debugRes.debugged_code ≠ "") :
    (processCoderTask writeRes debugRes execResults analyses).execCalls = 2 ∧
    ((execResults 1).status = "success" →
      (processCoderTask writeRes debugRes execResults analyses).finalCode =
        debugRes.debugged_code) ∧
    ((execResults 1).status ≠ "success" →
      (processCoderTask writeRes debugRes execResults analyses).finalCode =
        writeRes.code ∧
      (processCoderTask writeRes debugRes execResults analyses).lastExec =
        some { execution_result := execResults 1, analysis := analyses 1 } ∧
      ∃ pre post,
        (processCoderTask writeRes debugRes execResults analyses).result =
          pre ++ "Status: " ++ (execResults 1).status ++ post) := by
  by_cases hs : (execResults 1).status = "success"
  · refine ⟨?_, fun _ => ?_, fun hne => absurd hs hne⟩ <;>
      simp [processCoderTask, hcode, herr, hdbg, hs]
  · have hred : processCoderTask writeRes debugRes execResults analyses =
        { finalCode := writeRes.code, finalExplanation := writeRes.explanation,
          execCalls := 2,
          lastExec := some { execution_result := execResults 1, analysis := analyses 1 },
          result := coderResultString writeRes.code writeRes.explanation
            (some { execution_result := execResults 1, analysis := analyses 1 }) } := by
      simp [processCoderTask, hcode, herr, hdbg, hs]
    refine ⟨by rw [hred], fun h => absurd h hs,
      fun _ => ⟨by rw [hred], by rw [hred], ?_⟩⟩
    rw [hred]
    refine ⟨"# Code Solution\n\n```python\n" ++ writeRes.code ++
      "\n```\n\n## Explanation\n\n" ++ writeRes.explanation ++
      "\n\n## Execution Result\n\n",
      "\n\n" ++
        (if (execResults 1).output ≠ "" then
          "Output:\n```\n" ++ (execResults 1).output ++ "\n```\n\n" else "") ++
        (if (execResults 1).error ≠ "" then
          "Error:\n```\n" ++ (execResults 1).error ++ "\n```\n\n" else "") ++
        "Analysis: " ++ analyses 1, ?_⟩
    simp only [coderResultString, String.append_assoc]

/-- C3 witness: a concrete run whose first execution fails and whose debugged
code still fails on the single retry. -/
theorem c3_witness :
    (processCoderTask { code := "print(x)", explanation := "uses x" }
      { debugged_code := "print(1)", explanation := "fixed" }
      (fun n => if n = 0 then { status := "error", output := "", error := "NameError" }
        else { status := "error", output := "", error := "still broken" })
      (fun _ => "analysis")).execCalls = 2 ∧
    ((fun (n : Nat) => if n = 0 then
        ({ status := "error", output := "", error := "NameError" } : ReplRes)
      else { status := "error", output := "", error := "still broken" }) 1).status ≠
      "success" ∧
    (processCoderTask { code := "print(x)", explanation := "uses x" }
      { debugged_code := "print(1)", explanation := "fixed" }
      (fun n => if n = 0 then { status := "error", output := "", error := "NameError" }
        else { status := "error", output := "", error := "still broken" })
      (fun _ => "analysis")).finalCode = "print(x)" := by
  have h := c3_coder_single_retry
    { code := "print(x)", explanation := "uses x" }
    { debugged_code := "print(1)", explanation := "fixed" }
    (fun n => if n = 0 then { status := "error", output := "", error := "NameError" }
      else { status := "error", output := "", error := "still broken" })
    (fun _ => "analysis") (by decide) (by decide) (by decide)
  exact ⟨h.1, by decide, (h.2.2 (by decide)).1⟩

/-- C4 counterexample: `write_file` never checks the configured size cap, so
a content one byte over the 20 MB limit, written to an allow-listed `.txt`
path, is accepted with status `"success"` instead of the structured error the
claim requires. -/
theorem c4_write_counterexample :
    oversizedContent.length > maxFileSize ∧
    ".txt" ∈ allowedExtensions ∧
    (writeFile okFileWorld "/base" "/base/report.txt" oversizedContent).1.status =
      "success" := by
  refine ⟨?_, by decide, rfl⟩
  show (String.mk (List.replicate (maxFileSize + 1) 'a')).length > maxFileSize
  have h : (String.mk (List.replicate (maxFileSize + 1) 'a')).length =
      maxFileSize + 1 := by
    simp [String.length]
  omega

/-- C4 amended: `write_file` rejects a disallowed extension with a structured
`error` result and performs no filesystem call at all in that case; but it
enforces no size cap on writes: with an allowed extension and succeeding
filesystem primitives the write succeeds for a content of any length.  The
size cap is enforced only by `read_file`. -/
theorem c4_write_amended :
    (∀ w cwd p c,
      splitextExt (normalizeFilePath cwd p) ∉ allowedExtensions →
      (writeFile w cwd p c).1.status = "error" ∧ (writeFile w cwd p c).2 = []) ∧
    (∀ w cwd p c,
      splitextExt (normalizeFilePath cwd p) ∈ allowedExtensions →
      w.makedirs (dirname (normalizeFilePath cwd p)) = .ok () →
      w.writeData (normalizeFilePath cwd p) c = .ok () →
      (writeFile w cwd p c).1 =
        { status := "success", error := "", content := none,
          size := some c.length, path := some (normalizeFilePath cwd p) }) ∧
    (∀ w cwd p n,
      w.pathExists (normalizeFilePath cwd p) = .ok true →
      splitextExt (normalizeFilePath cwd p) ∈ allowedExtensions →
      w.getsize (normalizeFilePath cwd p) = .ok n → n > maxFileSize →
      (readFile w cwd p).status = "error") := by
  refine ⟨?_, ?_, ?_⟩
  · intro w cwd p c hext
    constructor <;> simp [writeFile, hext]
  · intro w cwd p c hext hmk hwr
    simp [writeFile, hext, hmk, hwr]
  · intro w cwd p n hex hext hsz hbig
    simp [readFile, hex, hext, hsz, hbig]

/-- C4 witness: the concrete rejection, oversize write and oversize read. -/
theorem c4_witness :
    ((writeFile okFileWorld "/base" "/base/virus.exe" "x").1.status = "error" ∧
      (writeFile okFileWorld "/base" "/base/virus.exe" "x").2 = []) ∧
    (writeFile okFileWorld "/base" "/base/a.txt" "hello").1 =
      { status := "success", error := "", content := none,
        size := some ("hello" : String).length, path := some "/base/a.txt" } ∧
    (readFile
      { okFileWorld with getsize := fun _ => .ok (maxFileSize + 1) }
      "/base" "/base/a.txt").status = "error" := by
  refine ⟨c4_write_amended.1 okFileWorld "/base" "/base/virus.exe" "x" (by decide),
    c4_write_amended.2.1 okFileWorld "/base" "/base/a.txt" "hello" (by decide)
      rfl rfl, ?_⟩
  exact c4_write_amended.2.2
    { okFileWorld with getsize := fun _ => .ok (maxFileSize + 1) }
    "/base" "/base/a.txt" (maxFileSize + 1) rfl (by decide) rfl (by omega)

/-- C9: the sandbox joins user-supplied relative paths directly onto its root
with no canonicalization or containment check, so a `..` component makes the
resolved target of `list_directory`, `create_file` and `copy_file` fall
outside the sandbox root. -/
theorem c9_path_escape :
    (listDirectory okSBWorld sandboxWorkspaceDir "../escape").full_path =
      some "/tmp/supernova_sandbox/../escape" ∧
    (sbCreateFile okSBWorld 0 "uuid-0" { files := [] } "../escape.txt" "x").1.file_path =
      some "/tmp/supernova_sandbox/../escape.txt" ∧
    (copyFile okSBWorld sandboxWorkspaceDir "a.txt" "../out.txt").dest_path =
      some "/tmp/supernova_sandbox/../out.txt" ∧
    normpath "/tmp/supernova_sandbox/../escape" = "/tmp/escape" ∧
    normpath "/tmp/supernova_sandbox/../escape.txt" = "/tmp/escape.txt" ∧
    normpath "/tmp/supernova_sandbox/../out.txt" = "/tmp/out.txt" ∧
    isWithin "/tmp/escape" sandboxWorkspaceDir = false ∧
    isWithin "/tmp/escape.txt" sandboxWorkspaceDir = false ∧
    isWithin "/tmp/out.txt" sandboxWorkspaceDir = false := by
  decide

/-- C10: any path whose basename has no dot-extension in the
`os.path.splitext` sense (which includes the dotfiles `.env` and `.gitignore`
listed in the allow-list) is rejected by both `write_file` and `read_file`
with a structured `error` result, because its extension is the empty string,
which is never in the allow-list. -/
theorem c10_dotfile_rejected (w : FileWorld) (cwd p content : String)
    (h : splitextExt (normalizeFilePath cwd p) = "") :
    ((writeFile w cwd p content).1.status = "error" ∧
      (writeFile w cwd p content).2 = []) ∧
    (readFile w cwd p).status = "error" ∧
    ".env" ∈ allowedExtensions ∧ ".gitignore" ∈ allowedExtensions ∧
    splitextExt "/home/user/.env" = "" ∧ splitextExt "/repo/.gitignore" = "" := by
  have hc : ("" : String) ∉ allowedExtensions := by decide
  refine ⟨?_, ?_, by decide, by decide, by decide, by decide⟩
  · constructor <;> simp [writeFile, h, hc]
  · unfold readFile
    cases hpe : w.pathExists (normalizeFilePath cwd p) with
    | error e => simp [hpe]
    | ok b => cases b <;> simp [hpe, h, hc]

/-- C10 witness: the dotfile `.env`, itself named in the allow-list, is
rejected by both operations even in a world where every primitive succeeds. -/
theorem c10_witness :
    ((writeFile okFileWorld "/home" "/home/user/.env" "X").1.status = "error" ∧
      (writeFile okFileWorld "/home" "/home/user/.env" "X").2 = []) ∧
    (readFile okFileWorld "/home" "/home/user/.env").status = "error" ∧
    ".env" ∈ allowedExtensions ∧ ".gitignore" ∈ allowedExtensions ∧
    splitextExt "/home/user/.env" = "" ∧ splitextExt "/repo/.gitignore" = "" :=
  c10_dotfile_rejected okFileWorld "/home" "/home/user/.env" "X" (by decide)

/-- C5 counterexample: in deep mode a top-level (depth-0) thought gets a
single fixed `Deep Analysis` sentence appended, not the four labelled
perspective lines; the recorded text for a concrete thought contains none of
the four perspective labels. -/
theorem c5_deep_counterexample :
    (currentContent (addThinking 5 deepTP "Analyzing the request." 0)) =
      some (.thinking ("Analyzing the request." ++ deepSuffix) "deep_thought" 0) ∧
    strContains ("Analyzing the request." ++ deepSuffix) "Logical" = false ∧
    strContains ("Analyzing the request." ++ deepSuffix) "Creative" = false ∧
    strContains ("Analyzing the request." ++ deepSuffix) "Critical" = false ∧
    strContains ("Analyzing the request." ++ deepSuffix) "Practical" = false := by
  decide

set_option maxRecDepth 16384 in
/-- C5 amended: in deep (resp. super-deep) mode, a depth-0 thought whose text
does not already start with the relevant label gets one fixed `Deep Analysis`
(resp. `Super Deep Analysis`) sentence appended; the fixed four labelled
perspective lines are produced by the separate `add_deep_thinking` helper when
no explicit perspectives are given, recorded as a depth-1 thought, and the
fixed seven labelled analysis-point lines by `add_super_deep_thinking`,
recorded as a depth-2 thought.  All of this is pure text templating on the
recorder state: no language-model oracle appears in these definitions. -/
theorem c5_deep_amended (now : Int) (tp : TP) (thought : String) :
    (tp.thinkingMode = deepThinking →
      strStartsWith thought "Deep Analysis:" = false →
      (currentContent (addThinking now tp thought 0)) =
        some (.thinking (thought ++ deepSuffix) "deep_thought" 0)) ∧
    (tp.thinkingMode = superDeepThinking →
      strStartsWith thought "Super Deep Analysis:" = false →
      (currentContent (addThinking now tp thought 0)) =
        some (.thinking (thought ++ superDeepSuffix) "super_deep_thought" 0)) ∧
    (currentContent (addDeepThinking now tp thought none)) =
      some (.thinking ("Deep Analysis: " ++ thought ++ "\n\n" ++ deepPerspectiveLines)
        "thought" 1) ∧
    (currentContent (addSuperDeepThinking now tp thought none)) =
      some (.thinking ("Super Deep Analysis: " ++ thought ++ "\n\n" ++ superDeepPointLines)
        "thought" 2) := by
  refine ⟨?_, ?_, ?_, ?_⟩
  · intro hm hst
    have hd : deepThinking ≠ superDeepThinking := by decide
    simp [addThinking, addStep, currentContent, hm, hst, hd]
  · intro hm hst
    have hd : superDeepThinking ≠ deepThinking := by decide
    simp [addThinking, addStep, currentContent, hm, hst, hd]
  · simp only [addDeepThinking, defaultPerspectives, List.foldl_cons,
      List.foldl_nil, addThinking, addStep, currentContent]
    simp only [Nat.one_ne_zero, false_and, ite_false, reduceIte,
      Option.some.injEq, StepContent.thinking.injEq, and_true, true_and]
    simp only [String.append_assoc]
    congr 1
  · simp only [addSuperDeepThinking, defaultAnalysisPoints, List.foldl_cons,
      List.foldl_nil, addThinking, addStep, currentContent]
    simp only [Nat.succ_ne_zero, false_and, ite_false, reduceIte,
      Option.some.injEq, StepContent.thinking.injEq, and_true, true_and]
    simp only [String.append_assoc]
    congr 1

/-- C5 witness: concrete deep-mode elaborations. -/
theorem c5_witness :
    (currentContent (addThinking 3 deepTP "Reviewing." 0)) =
      some (.thinking ("Reviewing." ++ deepSuffix) "deep_thought" 0) ∧
    (currentContent (addDeepThinking 3 deepTP "Reviewing." none)) =
      some (.thinking ("Deep Analysis: " ++ "Reviewing." ++ "\n\n" ++ deepPerspectiveLines)
        "thought" 1) := by
  have h := c5_deep_amended 3 deepTP "Reviewing."
  exact ⟨h.1 (by decide) (by decide), h.2.2.1⟩

/-- C6 helper: `range' 1` grows by appending the next id. -/
theorem range'_one_concat (n : Nat) :
    List.range' 1 (n + 1) = List.range' 1 n ++ [n + 1] := by
  have h : ∀ s k : Nat, List.range' s (k + 1) = List.range' s k ++ [s + k] := by
    intro s k
    induction k generalizing s with
    | zero => rfl
    | succ k ih =>
      rw [List.range'_succ, ih, List.range'_succ, List.cons_append]
      have hh : s + 1 + k = s + (k + 1) := by omega
      rw [hh]
  rw [h 1 n]
  have hh : 1 + n = n + 1 := by omega
  rw [hh]

/-- C6 helper: ids recorded by one `add_step`. -/
theorem addStep_stepIds (now : Int) (ty : String) (c : StepContent) (tp : TP) :
    stepIds (addStep now ty c tp) = stepIds tp ++ [tp.steps.length + 1] := by
  simp [stepIds, addStep]

/-- C6 helper: elapsed values recorded by one `add_step`. -/
theorem addStep_stepElapsed (now : Int) (ty : String) (c : StepContent) (tp : TP) :
    stepElapsed (addStep now ty c tp) = stepElapsed tp ++ [now - tp.startTime] := by
  simp [stepElapsed, addStep]

/-- C6 helper: `add_step` keeps the session start time. -/
theorem addStep_startTime (now : Int) (ty : String) (c : StepContent) (tp : TP) :
    (addStep now ty c tp).startTime = tp.startTime := rfl

/-- C6 helper: `add_step` appends exactly one step. -/
theorem addStep_length (now : Int) (ty : String) (c : StepContent) (tp : TP) :
    (addStep now ty c tp).steps.length = tp.steps.length + 1 := by
  simp [addStep]

/-- C6 helper: the session invariant is preserved by `add_step` at any later
clock value. -/
theorem tpInv_addStep (tp : TP) (clock now : Int) (ty : String) (c : StepContent)
    (h : TPInv tp clock) (hle : clock ≤ now) : TPInv (addStep now ty c tp) now := by
  obtain ⟨h1, h2, h3⟩ := h
  refine ⟨?_, ?_, ?_⟩
  · rw [addStep_stepIds, h1, addStep_length, range'_one_concat]
  · rw [addStep_stepElapsed, List.pairwise_append]
    refine ⟨h2, by simp, ?_⟩
    intro a ha b hb
    simp only [List.mem_singleton] at hb
    subst hb
    have hb1 := h3 a ha
    omega
  · rw [addStep_stepElapsed]
    intro e he
    rw [addStep_startTime]
    rcases List.mem_append.mp he with h' | h'
    · have := h3 e h'
      omega
    · simp only [List.mem_singleton] at h'
      subst h'
      omega

/-- C6 helper: `add_artifact` touches neither the step list nor the start
time. -/
theorem addArtifact_steps (now : Int) (tp : TP) (ty : String) (c : ArtifactContent) :
    (addArtifact now tp ty c).steps = tp.steps ∧
    (addArtifact now tp ty c).startTime = tp.startTime := by
  unfold addArtifact
  split_ifs <;> exact ⟨rfl, rfl⟩

/-- C6 helper: the session invariant transports along equal step lists and
start times, and along a clock increase. -/
theorem tpInv_congr (tp1 tp2 : TP) (clock clock2 : Int)
    (hsteps : tp1.steps = tp2.steps) (hstart : tp1.startTime = tp2.startTime)
    (hle : clock ≤ clock2) (h : TPInv tp1 clock) : TPInv tp2 clock2 := by
  obtain ⟨h1, h2, h3⟩ := h
  have e1 : stepIds tp2 = stepIds tp1 := by unfold stepIds; rw [hsteps]
  have e2 : stepElapsed tp2 = stepElapsed tp1 := by unfold stepElapsed; rw [hsteps]
  have e3 : tp2.steps.length = tp1.steps.length := by rw [hsteps]
  refine ⟨by rw [e1, e3]; exact h1, by rw [e2]; exact h2, ?_⟩
  intro e he
  rw [e2] at he
  rw [← hstart]
  have := h3 e he
  omega

/-- C6 helper: the session invariant is preserved by every recorder call. -/
theorem tpInv_applyOp (tp : TP) (clock now : Int) (op : TPOp)
    (h : TPInv tp clock) (hle : clock ≤ now) : TPInv (applyOp now op tp) now := by
  cases op with
  | thinking t d => exact tpInv_addStep tp clock now _ _ h hle
  | planning p => exact tpInv_addStep { tp with plan := p } clock now _ _ h hle
  | execution a r => exact tpInv_addStep tp clock now _ _ h hle
  | link u t d =>
    have hs := addArtifact_steps now tp "link"
      (.link u (orElseStr t u) (orElseStr d ""))
    exact tpInv_congr tp _ clock now hs.1.symm hs.2.symm hle h
  | file pth ct d =>
    have hs := addArtifact_steps now tp "file" (.file pth ct (orElseStr d ""))
    exact tpInv_congr tp _ clock now hs.1.symm hs.2.symm hle h
  | deepThinking t ps => exact tpInv_addStep tp clock now _ _ h hle
  | superDeepThinking t ps => exact tpInv_addStep tp clock now _ _ h hle
  | terminalOutput o =>
    exact tpInv_addStep
      { tp with terminalOutput := tp.terminalOutput ++
          [{ content := o, timestamp := now, elapsed := now - tp.startTime }] }
      clock now _ _ h hle

/-- C6 helper: the session invariant is preserved by any chain of recorder
calls at non-decreasing clock values. -/
theorem tpInv_applyOps (ops : List (Int × TPOp)) (tp : TP) (clock : Int)
    (h : TPInv tp clock) (hch : List.Chain (· ≤ ·) clock (ops.map Prod.fst)) :
    ∃ c2, TPInv (applyOps ops tp) c2 := by
  induction ops generalizing tp clock with
  | nil => exact ⟨clock, h⟩
  | cons hd tl ih =>
    rw [List.map_cons, List.chain_cons] at hch
    exact ih (applyOp hd.1 hd.2 tp) hd.1
      (tpInv_applyOp tp clock hd.1 hd.2 h hch.1) hch.2

/-- C6 helper: a fresh session satisfies the invariant at its start clock. -/
theorem startThinking_tpInv (now : Int) (q : String) (m : Option String) (tp : TP) :
    TPInv (startThinking now q m tp) now := by
  have hb : ∀ md : String,
      TPInv { steps := [], currentStep := none, startTime := now,
              artifacts := [], links := [], files := [], plan := [],
              terminalOutput := [], thinkingMode := md } now := by
    intro md
    refine ⟨rfl, List.Pairwise.nil, ?_⟩
    intro e he
    simp [stepElapsed] at he
  have h2 : ∀ md : String,
      TPInv (addStep now "query" (.query q)
        { steps := [], currentStep := none, startTime := now, artifacts := [],
          links := [], files := [], plan := [], terminalOutput := [],
          thinkingMode := md }) now :=
    fun md => tpInv_addStep _ now now _ _ (hb md) le_rfl
  simp only [startThinking]
  split_ifs <;> first
    | exact tpInv_addStep _ now now _ _ (h2 _) le_rfl
    | exact h2 _

/-- C6 helper: no recorder call removes steps. -/
theorem applyOp_steps_le (now : Int) (op : TPOp) (tp : TP) :
    tp.steps.length ≤ (applyOp now op tp).steps.length := by
  cases op with
  | link u t d =>
    exact le_of_eq (congrArg List.length
      (addArtifact_steps now tp "link" (.link u (orElseStr t u) (orElseStr d ""))).1).symm
  | file pth ct d =>
    exact le_of_eq (congrArg List.length
      (addArtifact_steps now tp "file" (.file pth ct (orElseStr d ""))).1).symm
  | thinking t d => simp [applyOp, addThinking, addStep]
  | planning p => simp [applyOp, addPlanning, addStep]
  | execution a r => simp [applyOp, addExecution, addStep]
  | deepThinking t ps => simp [applyOp, addDeepThinking, addThinking, addStep]
  | superDeepThinking t ps =>
    simp [applyOp, addSuperDeepThinking, addThinking, addStep]
  | terminalOutput o => simp [applyOp, addTerminalOutput, addStep]

/-- C6 helper: chains of recorder calls never remove steps. -/
theorem applyOps_steps_le (ops : List (Int × TPOp)) (tp : TP) :
    tp.steps.length ≤ (applyOps ops tp).steps.length := by
  induction ops generalizing tp with
  | nil => exact le_rfl
  | cons hd tl ih =>
    exact le_trans (applyOp_steps_le hd.1 hd.2 tp) (ih (applyOp hd.1 hd.2 tp))

/-- C6 helper: a fresh session starts with at least its query step. -/
theorem startThinking_len (now : Int) (q : String) (m : Option String) (tp : TP) :
    1 ≤ (startThinking now q m tp).steps.length := by
  simp only [startThinking]
  split_ifs <;> simp [addThinking, addStep]

/-- C6 helper: a fresh session has an empty artifact collection. -/
theorem startThinking_artifacts (now : Int) (q : String) (m : Option String) (tp : TP) :
    (startThinking now q m tp).artifacts = [] := by
  simp only [startThinking]
  split_ifs <;> rfl

/-- C6: within one session (one `start_thinking` followed by any recorder
calls at non-decreasing clock values) the recorded event ids are exactly
`1..N` in append order, the elapsed values are non-decreasing across the
sequence, the session is non-empty (so ids restart at 1 after every
`start_thinking`), and starting the session reset the artifact collection. -/
theorem c6_trace_invariants (tp : TP) (t0 : Int) (q : String) (m : Option String)
    (ops : List (Int × TPOp))
    (hch : List.Chain (· ≤ ·) t0 (ops.map Prod.fst)) :
    stepIds (applyOps ops (startThinking t0 q m tp)) =
      List.range' 1 (applyOps ops (startThinking t0 q m tp)).steps.length ∧
    List.Pairwise (· ≤ ·) (stepElapsed (applyOps ops (startThinking t0 q m tp))) ∧
    1 ≤ (applyOps ops (startThinking t0 q m tp)).steps.length ∧
    (startThinking t0 q m tp).artifacts = [] := by
  obtain ⟨c2, hi⟩ := tpInv_applyOps ops (startThinking t0 q m tp) t0
    (startThinking_tpInv t0 q m tp) hch
  exact ⟨hi.1, hi.2.1,
    le_trans (startThinking_len t0 q m tp) (applyOps_steps_le ops _),
    startThinking_artifacts t0 q m tp⟩

/-- C6 witness: a concrete session with three recorder calls at increasing
clock values. -/
theorem c6_witness :
    stepIds (applyOps [((6 : Int), TPOp.thinking "Analyzing." 0),
        ((7 : Int), TPOp.link "http://a" none none),
        ((9 : Int), TPOp.terminalOutput "done")]
      (startThinking 5 "list files" none (initTP 0 normalThinking))) =
      List.range' 1 (applyOps [((6 : Int), TPOp.thinking "Analyzing." 0),
        ((7 : Int), TPOp.link "http://a" none none),
        ((9 : Int), TPOp.terminalOutput "done")]
      (startThinking 5 "list files" none (initTP 0 normalThinking))).steps.length ∧
    List.Pairwise (· ≤ ·) (stepElapsed (applyOps
      [((6 : Int), TPOp.thinking "Analyzing." 0),
        ((7 : Int), TPOp.link "http://a" none none),
        ((9 : Int), TPOp.terminalOutput "done")]
      (startThinking 5 "list files" none (initTP 0 normalThinking)))) ∧
    1 ≤ (applyOps [((6 : Int), TPOp.thinking "Analyzing." 0),
        ((7 : Int), TPOp.link "http://a" none none),
        ((9 : Int), TPOp.terminalOutput "done")]
      (startThinking 5 "list files" none (initTP 0 normalThinking))).steps.length ∧
    (startThinking 5 "list files" none (initTP 0 normalThinking)).artifacts = [] :=
  c6_trace_invariants (initTP 0 normalThinking) 5 "list files" none
    [((6 : Int), TPOp.thinking "Analyzing." 0),
     ((7 : Int), TPOp.link "http://a" none none),
     ((9 : Int), TPOp.terminalOutput "done")]
    (by simp [List.chain_cons])

/-- C7 helper: totality of `list_directory`. -/
theorem listDirectory_total (w : SBWorld) (root p : String) :
    okStatus (listDirectory w root p).status (listDirectory w root p).error := by
  simp only [okStatus, listDirectory]
  repeat' split
  all_goals try simp

/-- C7 helper: totality of `create_directory`. -/
theorem createDirectory_total (w : SBWorld) (root p : String) :
    okStatus (createDirectory w root p).status (createDirectory w root p).error := by
  simp only [okStatus, createDirectory]
  repeat' split
  all_goals try simp

/-- C7 helper: totality of `copy_file`. -/
theorem copyFile_total (w : SBWorld) (root s d : String) :
    okStatus (copyFile w root s d).status (copyFile w root s d).error := by
  simp only [okStatus, copyFile]
  repeat' split
  all_goals try simp

/-- C7 helper: totality of `move_file`. -/
theorem moveFile_total (w : SBWorld) (root s d : String) :
    okStatus (moveFile w root s d).status (moveFile w root s d).error := by
  simp only [okStatus, moveFile]
  repeat' split
  all_goals try simp

/-- C7 helper: totality of `find_files`. -/
theorem findFiles_total (w : SBWorld) (root pat : String) :
    okStatus (findFiles w root pat).status (findFiles w root pat).error := by
  simp only [okStatus, findFiles]
  repeat' split
  all_goals try simp

/-- C7 helper: totality of `get_file_info`. -/
theorem getFileInfo_total (w : SBWorld) (root p : String) :
    okStatus (getFileInfo w root p).status (getFileInfo w root p).error := by
  simp only [okStatus, getFileInfo]
  repeat' split
  all_goals try simp

/-- C7 helper: totality of the sandbox-level `create_file`. -/
theorem sbCreateFile_total (w : SBWorld) (now : Int) (uuid : String)
    (st : SandboxState) (fn c : String) :
    okStatus (sbCreateFile w now uuid st fn c).1.status
      (sbCreateFile w now uuid st fn c).1.error := by
  simp only [okStatus, sbCreateFile]
  repeat' split
  all_goals try simp

/-- C7 helper: totality of the sandbox-level `read_file`. -/
theorem sbReadFile_total (w : SBWorld) (fn : String) :
    okStatus (sbReadFile w fn).status (sbReadFile w fn).error := by
  simp only [okStatus, sbReadFile]
  repeat' split
  all_goals try simp

/-- C7 helper: totality of the sandbox-level `list_files`. -/
theorem sbListFiles_total (w : SBWorld) :
    okStatus (sbListFiles w).status (sbListFiles w).error := by
  simp only [okStatus, sbListFiles]
  repeat' split
  all_goals try simp

/-- C7 helper: totality of the sandbox-level `delete_file`. -/
theorem sbDeleteFile_total (w : SBWorld) (st : SandboxState) (fn : String) :
    okStatus (sbDeleteFile w st fn).1.status (sbDeleteFile w st fn).1.error := by
  simp only [okStatus, sbDeleteFile]
  repeat' split
  all_goals try simp

/-- C7 helper: totality of the sandbox-level `clean`. -/
theorem sbClean_total (w : SBWorld) (st : SandboxState) :
    okStatus (sbClean w st).1.status (sbClean w st).1.error := by
  simp only [okStatus, sbClean]
  repeat' split
  all_goals try simp

/-- C7: every sandbox filesystem operation is total over every oracle world,
including worlds whose primitives raise arbitrary exceptions: the returned
dictionary always has status `success` or `error`, every `error` result
carries an error message, and no operation propagates an exception (the
operations are plain total functions of the oracle). -/
theorem c7_fs_total :
    (∀ w root p, okStatus (listDirectory w root p).status (listDirectory w root p).error) ∧
    (∀ w root p, okStatus (createDirectory w root p).status (createDirectory w root p).error) ∧
    (∀ w root s d, okStatus (copyFile w root s d).status (copyFile w root s d).error) ∧
    (∀ w root s d, okStatus (moveFile w root s d).status (moveFile w root s d).error) ∧
    (∀ w root pat, okStatus (findFiles w root pat).status (findFiles w root pat).error) ∧
    (∀ w root p, okStatus (getFileInfo w root p).status (getFileInfo w root p).error) ∧
    (∀ w now uuid st fn c, okStatus (sbCreateFile w now uuid st fn c).1.status
      (sbCreateFile w now uuid st fn c).1.error) ∧
    (∀ w fn, okStatus (sbReadFile w fn).status (sbReadFile w fn).error) ∧
    (∀ w, okStatus (sbListFiles w).status (sbListFiles w).error) ∧
    (∀ w st fn, okStatus (sbDeleteFile w st fn).1.status (sbDeleteFile w st fn).1.error) ∧
    (∀ w st, okStatus (sbClean w st).1.status (sbClean w st).1.error) :=
  ⟨listDirectory_total, createDirectory_total, copyFile_total, moveFile_total,
   findFiles_total, getFileInfo_total, sbCreateFile_total, sbReadFile_total,
   sbListFiles_total, sbDeleteFile_total, sbClean_total⟩
